import Mathlib

/-!
Shallow embedding of the POC_FPF order service
(`src/POC_magicmock_sync/order_service.py` and
`src/POC_magicmock_async/order_service_async.py`).

Python dictionaries are embedded as structures whose optional keys are
`Option` fields; `d.get(k)` reads the `Option` directly, `d[k]` pattern
matches and raises `KeyError` on `none`.  Python exceptions become an
inductive error type; collaborator calls are fallible functions returning
`Except`.  Each invocation additionally produces the list of collaborator
calls it performed, in order, so that call counts, call order and call
arguments can be stated.
-/

namespace OrderPOC

/-- An order item: a dict with a required `"price"` key and an optional
`"qty"` key (`i["price"]`, `i.get("qty", 1)`). -/
structure Item where
  price : Int
  qty : Option Int
deriving Repr, DecidableEq

/-- `i["price"] * i.get("qty", 1)` for a single item. -/
def Item.amount (i : Item) : Int :=
  i.price * i.qty.getD 1

/-- `total = sum(i["price"] * i.get("qty", 1) for i in items)`
(line 26 of both service files). -/
def orderTotal (items : List Item) : Int :=
  (items.map Item.amount).sum

/-- The dict returned by `gateway.authorize_payment`: may or may not carry
`"status"` and `"payment_id"` keys. -/
structure AuthResult where
  status : Option String
  payment_id : Option String
deriving Repr, DecidableEq

/-- The dict returned by `repo.save_order`: the service only reads
`order["id"]`; the repository may echo further fields, kept opaque here. -/
structure Order where
  id : Option Int
  rest : List (String × Int)
deriving Repr, DecidableEq

/-- Python exceptions that `create_order` can surface: its own
`ValueError` / `PermissionError`, a `KeyError` from a dict subscript, or
an arbitrary exception `e : ε` raised by a collaborator. -/
inductive PyErr (ε : Type) where
  | valueError (msg : String)
  | permissionError (msg : String)
  | keyError (key : String)
  | other (e : ε)
deriving Repr, DecidableEq

/-- One collaborator call, with the arguments it received. -/
inductive CallEvent where
  | authorize_payment (user_id : Int) (amount : Int)
  | save_order (user_id : Int) (items : List Item) (total : Int)
      (payment_id : String)
  | track (event : String) (payload : List (String × Int))
deriving Repr, DecidableEq

/-- The three injected collaborators (`gateway`, `repo`, `audit`).  Each
operation either returns a value or raises an exception `e : ε`. -/
structure Collab (ε : Type) where
  authorize_payment : Int → Int → Except ε AuthResult
  save_order : Int → List Item → Int → String → Except ε Order
  track : String → List (String × Int) → Except ε Unit

/-- `OrderService.create_order` (sync variant), returning the outcome and
the ordered list of collaborator calls performed. -/
def create_order {ε : Type} (c : Collab ε) (user_id : Int)
    (items : List Item) : Except (PyErr ε) Order × List CallEvent :=
  if items.isEmpty then
    (Except.error (PyErr.valueError "items cannot be empty"), [])
  else
    let total := orderTotal items
    match c.authorize_payment user_id total with
    | Except.error e =>
        (Except.error (PyErr.other e), [CallEvent.authorize_payment user_id total])
    | Except.ok auth =>
        let status := auth.status
        if status ≠ some "approved" then
          match c.track "order_denied" [("user_id", user_id), ("total", total)] with
          | Except.error e =>
              (Except.error (PyErr.other e),
               [CallEvent.authorize_payment user_id total,
                CallEvent.track "order_denied" [("user_id", user_id), ("total", total)]])
          | Except.ok _ =>
              (Except.error (PyErr.permissionError "payment not approved"),
               [CallEvent.authorize_payment user_id total,
                CallEvent.track "order_denied" [("user_id", user_id), ("total", total)]])
        else
          match auth.payment_id with
          | none =>
              (Except.error (PyErr.keyError "payment_id"),
               [CallEvent.authorize_payment user_id total])
          | some pid =>
              match c.save_order user_id items total pid with
              | Except.error e =>
                  (Except.error (PyErr.other e),
                   [CallEvent.authorize_payment user_id total,
                    CallEvent.save_order user_id items total pid])
              | Except.ok order =>
                  match order.id with
                  | none =>
                      (Except.error (PyErr.keyError "id"),
                       [CallEvent.authorize_payment user_id total,
                        CallEvent.save_order user_id items total pid])
                  | some oid =>
                      match c.track "order_created"
                          [("order_id", oid), ("total", total)] with
                      | Except.error e =>
                          (Except.error (PyErr.other e),
                           [CallEvent.authorize_payment user_id total,
                            CallEvent.save_order user_id items total pid,
                            CallEvent.track "order_created"
                              [("order_id", oid), ("total", total)]])
                      | Except.ok _ =>
                          (Except.ok order,
                           [CallEvent.authorize_payment user_id total,
                            CallEvent.save_order user_id items total pid,
                            CallEvent.track "order_created"
                              [("order_id", oid), ("total", total)]])

/-- A suspended order-service computation: each constructor other than
`ret` is an `await` point on one collaborator call, with the continuation
receiving that call's outcome. -/
inductive OrderProg (ε : Type) : Type → Type 1 where
  | ret {α : Type} (a : Except (PyErr ε) α) : OrderProg ε α
  | authorize_payment {α : Type} (user_id amount : Int)
      (k : Except ε AuthResult → OrderProg ε α) : OrderProg ε α
  | save_order {α : Type} (user_id : Int) (items : List Item) (total : Int)
      (payment_id : String) (k : Except ε Order → OrderProg ε α) : OrderProg ε α
  | track {α : Type} (event : String) (payload : List (String × Int))
      (k : Except ε Unit → OrderProg ε α) : OrderProg ε α

/-- `OrderServiceAsync.create_order` (async variant), as a suspended
computation: the body between `await`s is identical to the sync source. -/
def create_order_async {ε : Type} (user_id : Int) (items : List Item) :
    OrderProg ε Order :=
  if items.isEmpty then
    OrderProg.ret (Except.error (PyErr.valueError "items cannot be empty"))
  else
    let total := orderTotal items
    OrderProg.authorize_payment user_id total fun r =>
      match r with
      | Except.error e => OrderProg.ret (Except.error (PyErr.other e))
      | Except.ok auth =>
          let status := auth.status
          if status ≠ some "approved" then
            OrderProg.track "order_denied"
                [("user_id", user_id), ("total", total)] fun r =>
              match r with
              | Except.error e => OrderProg.ret (Except.error (PyErr.other e))
              | Except.ok _ =>
                  OrderProg.ret
                    (Except.error (PyErr.permissionError "payment not approved"))
          else
            match auth.payment_id with
            | none => OrderProg.ret (Except.error (PyErr.keyError "payment_id"))
            | some pid =>
                OrderProg.save_order user_id items total pid fun r =>
                  match r with
                  | Except.error e => OrderProg.ret (Except.error (PyErr.other e))
                  | Except.ok order =>
                      match order.id with
                      | none => OrderProg.ret (Except.error (PyErr.keyError "id"))
                      | some oid =>
                          OrderProg.track "order_created"
                              [("order_id", oid), ("total", total)] fun r =>
                            match r with
                            | Except.error e =>
                                OrderProg.ret (Except.error (PyErr.other e))
                            | Except.ok _ => OrderProg.ret (Except.ok order)

/-- Run a suspended computation against concrete collaborators: resolve
each `await` with the collaborator's outcome, recording the call. -/
def OrderProg.run {ε : Type} {α : Type} (c : Collab ε) :
    OrderProg ε α → Except (PyErr ε) α × List CallEvent
  | OrderProg.ret a => (a, [])
  | OrderProg.authorize_payment u amt k =>
      let p := (k (c.authorize_payment u amt)).run c
      (p.1, CallEvent.authorize_payment u amt :: p.2)
  | OrderProg.save_order u its t pid k =>
      let p := (k (c.save_order u its t pid)).run c
      (p.1, CallEvent.save_order u its t pid :: p.2)
  | OrderProg.track ev pl k =>
      let p := (k (c.track ev pl)).run c
      (p.1, CallEvent.track ev pl :: p.2)

/-- Is a call event an authorization call? -/
def CallEvent.isAuthorize : CallEvent → Bool
  | CallEvent.authorize_payment _ _ => true
  | _ => false

/-- Is a call event a persistence call? -/
def CallEvent.isSave : CallEvent → Bool
  | CallEvent.save_order _ _ _ _ => true
  | _ => false

/-- Is a call event an audit call? -/
def CallEvent.isTrack : CallEvent → Bool
  | CallEvent.track _ _ => true
  | _ => false

/-- The amount/total carried by a call event: the `amount` argument of an
authorization, the `total` argument of a persistence call, the `"total"`
entry of an audit payload. -/
def CallEvent.totalUsed : CallEvent → Option Int
  | CallEvent.authorize_payment _ amount => some amount
  | CallEvent.save_order _ _ total _ => some total
  | CallEvent.track _ payload => payload.lookup "total"

theorem isEmpty_eq_false_of_ne_nil {items : List Item} (h : items ≠ []) :
    items.isEmpty = false := by
  cases items with
  | nil => exact absurd rfl h
  | cons a l => rfl

/-- For a non-empty item list, the call trace of one `create_order`
invocation has one of exactly four shapes, each beginning with the single
authorization call. -/
theorem create_order_trace_shapes (ε : Type) (c : Collab ε) (u : Int)
    (items : List Item) (h : items ≠ []) :
    (create_order c u items).2 =
        [CallEvent.authorize_payment u (orderTotal items)] ∨
    (create_order c u items).2 =
        [CallEvent.authorize_payment u (orderTotal items),
         CallEvent.track "order_denied"
           [("user_id", u), ("total", orderTotal items)]] ∨
    (∃ pid, (create_order c u items).2 =
        [CallEvent.authorize_payment u (orderTotal items),
         CallEvent.save_order u items (orderTotal items) pid]) ∨
    (∃ pid oid, (create_order c u items).2 =
        [CallEvent.authorize_payment u (orderTotal items),
         CallEvent.save_order u items (orderTotal items) pid,
         CallEvent.track "order_created"
           [("order_id", oid), ("total", orderTotal items)]]) := by
  have h0 := isEmpty_eq_false_of_ne_nil h
  cases hauth : c.authorize_payment u (orderTotal items) with
  | error e => simp [create_order, h0, hauth]
  | ok auth =>
    by_cases hst : auth.status = some "approved"
    · cases hpid : auth.payment_id with
      | none => simp [create_order, h0, hauth, hst, hpid]
      | some pid =>
        cases hsave : c.save_order u items (orderTotal items) pid with
        | error e =>
          refine Or.inr (Or.inr (Or.inl ⟨pid, ?_⟩))
          simp [create_order, h0, hauth, hst, hpid, hsave]
        | ok order =>
          cases hid : order.id with
          | none =>
            refine Or.inr (Or.inr (Or.inl ⟨pid, ?_⟩))
            simp [create_order, h0, hauth, hst, hpid, hsave, hid]
          | some oid =>
            cases htr : c.track "order_created"
                [("order_id", oid), ("total", orderTotal items)] with
            | error e =>
              refine Or.inr (Or.inr (Or.inr ⟨pid, oid, ?_⟩))
              simp [create_order, h0, hauth, hst, hpid, hsave, hid, htr]
            | ok r =>
              refine Or.inr (Or.inr (Or.inr ⟨pid, oid, ?_⟩))
              simp [create_order, h0, hauth, hst, hpid, hsave, hid, htr]
    · cases htr : c.track "order_denied"
          [("user_id", u), ("total", orderTotal items)] with
      | error e => simp [create_order, h0, hauth, hst, htr]
      | ok r => simp [create_order, h0, hauth, hst, htr]

/-- C4: calling `create_order` with an empty item list fails immediately
with `ValueError "items cannot be empty"` and performs no collaborator
call at all, for every user id and every collaborator behaviour. -/
theorem create_order_empty_items (ε : Type) (c : Collab ε) (u : Int) :
    create_order c u [] =
      (Except.error (PyErr.valueError "items cannot be empty"), []) := rfl

/-- C1: for a non-empty item list, when authorization returns a dict with
status exactly `"approved"`, the service saves the order exactly once with
`(user_id, items, total, payment_id)` taking `payment_id` from the
authorization result, then tracks `"order_created"` exactly once with
`{order_id := order.id, total}`, in that order, and returns the persisted
order unchanged. -/
theorem create_order_approved_success (ε : Type) (c : Collab ε) (u : Int)
    (items : List Item) (auth : AuthResult) (pid : String) (order : Order)
    (oid : Int)
    (hne : items ≠ [])
    (hauth : c.authorize_payment u (orderTotal items) = Except.ok auth)
    (hst : auth.status = some "approved")
    (hpid : auth.payment_id = some pid)
    (hsave : c.save_order u items (orderTotal items) pid = Except.ok order)
    (hid : order.id = some oid)
    (htr : c.track "order_created" [("order_id", oid), ("total", orderTotal items)]
        = Except.ok ()) :
    create_order c u items =
      (Except.ok order,
       [CallEvent.authorize_payment u (orderTotal items),
        CallEvent.save_order u items (orderTotal items) pid,
        CallEvent.track "order_created"
          [("order_id", oid), ("total", orderTotal items)]]) := by
  have h0 := isEmpty_eq_false_of_ne_nil hne
  simp [create_order, h0, hauth, hst, hpid, hsave, hid, htr]

/-- C5: for a non-empty item list, a gateway exception is propagated
verbatim and neither the repository nor the audit sink receives a call. -/
theorem create_order_gateway_error (ε : Type) (c : Collab ε) (u : Int)
    (items : List Item) (e : ε)
    (hne : items ≠ [])
    (hauth : c.authorize_payment u (orderTotal items) = Except.error e) :
    create_order c u items =
      (Except.error (PyErr.other e),
       [CallEvent.authorize_payment u (orderTotal items)]) := by
  have h0 := isEmpty_eq_false_of_ne_nil hne
  simp [create_order, h0, hauth]

/-- C6: for a non-empty item list, when authorization is approved but the
repository raises, the exception is propagated verbatim and the audit sink
receives no call at all. -/
theorem create_order_repo_error (ε : Type) (c : Collab ε) (u : Int)
    (items : List Item) (auth : AuthResult) (pid : String) (e : ε)
    (hne : items ≠ [])
    (hauth : c.authorize_payment u (orderTotal items) = Except.ok auth)
    (hst : auth.status = some "approved")
    (hpid : auth.payment_id = some pid)
    (hsave : c.save_order u items (orderTotal items) pid = Except.error e) :
    create_order c u items =
      (Except.error (PyErr.other e),
       [CallEvent.authorize_payment u (orderTotal items),
        CallEvent.save_order u items (orderTotal items) pid]) := by
  have h0 := isEmpty_eq_false_of_ne_nil hne
  simp [create_order, h0, hauth, hst, hpid, hsave]

/-- C2: for a non-empty item list, when the authorization status is not
exactly `"approved"`, the service tracks `"order_denied"` exactly once
with payload `{user_id, total}`, never calls the repository (the whole
trace is the authorization followed by that single audit call), and — the
audit call returning normally — fails with
`PermissionError "payment not approved"`. -/
theorem create_order_denied_path (ε : Type) (c : Collab ε) (u : Int)
    (items : List Item) (auth : AuthResult)
    (hne : items ≠ [])
    (hauth : c.authorize_payment u (orderTotal items) = Except.ok auth)
    (hst : auth.status ≠ some "approved") :
    (create_order c u items).2 =
      [CallEvent.authorize_payment u (orderTotal items),
       CallEvent.track "order_denied"
         [("user_id", u), ("total", orderTotal items)]] ∧
    (c.track "order_denied" [("user_id", u), ("total", orderTotal items)]
        = Except.ok () →
      (create_order c u items).1 =
        Except.error (PyErr.permissionError "payment not approved")) := by
  have h0 := isEmpty_eq_false_of_ne_nil hne
  cases htr : c.track "order_denied"
      [("user_id", u), ("total", orderTotal items)] with
  | error e =>
    constructor
    · simp [create_order, h0, hauth, hst, htr]
    · intro hok; exact Except.noConfusion hok
  | ok r =>
    constructor
    · simp [create_order, h0, hauth, hst, htr]
    · intro hok; simp [create_order, h0, hauth, hst, htr]

/-- C10: for a non-empty item list, when the authorization result carries
no `"status"` key at all, the service takes the denied path — a single
`"order_denied"` audit call after the authorization, repository untouched,
`PermissionError` when the audit call returns — and never fails with a
key-lookup error, since the status is read with a defaulting lookup. -/
theorem create_order_missing_status_denied (ε : Type) (c : Collab ε)
    (u : Int) (items : List Item) (auth : AuthResult)
    (hne : items ≠ [])
    (hauth : c.authorize_payment u (orderTotal items) = Except.ok auth)
    (hst : auth.status = none) :
    (create_order c u items).2 =
      [CallEvent.authorize_payment u (orderTotal items),
       CallEvent.track "order_denied"
         [("user_id", u), ("total", orderTotal items)]] ∧
    (∀ k, (create_order c u items).1 ≠ Except.error (PyErr.keyError k)) ∧
    (c.track "order_denied" [("user_id", u), ("total", orderTotal items)]
        = Except.ok () →
      (create_order c u items).1 =
        Except.error (PyErr.permissionError "payment not approved")) := by
  have h0 := isEmpty_eq_false_of_ne_nil hne
  cases htr : c.track "order_denied"
      [("user_id", u), ("total", orderTotal items)] with
  | error e =>
    refine ⟨by simp [create_order, h0, hauth, hst, htr], ?_, ?_⟩
    · intro k; simp [create_order, h0, hauth, hst, htr]
    · intro hok; exact Except.noConfusion hok
  | ok r =>
    refine ⟨by simp [create_order, h0, hauth, hst, htr], ?_, ?_⟩
    · intro k; simp [create_order, h0, hauth, hst, htr]
    · intro hok; simp [create_order, h0, hauth, hst, htr]

/-- C9: an exception raised by `audit.track` propagates verbatim: on the
denied branch the invocation fails with the audit sink's error instead of
`PermissionError`, and on the success branch after persistence the
persisted order is not returned — the invocation fails with the audit
sink's error. -/
theorem create_order_audit_error_propagates (ε : Type) (c : Collab ε)
    (u : Int) (items : List Item) (auth : AuthResult) (e : ε)
    (hne : items ≠ [])
    (hauth : c.authorize_payment u (orderTotal items) = Except.ok auth) :
    (auth.status ≠ some "approved" →
      c.track "order_denied" [("user_id", u), ("total", orderTotal items)]
          = Except.error e →
      (create_order c u items).1 = Except.error (PyErr.other e)) ∧
    (∀ pid order oid,
      auth.status = some "approved" →
      auth.payment_id = some pid →
      c.save_order u items (orderTotal items) pid = Except.ok order →
      order.id = some oid →
      c.track "order_created" [("order_id", oid), ("total", orderTotal items)]
          = Except.error e →
      (create_order c u items).1 = Except.error (PyErr.other e)) := by
  have h0 := isEmpty_eq_false_of_ne_nil hne
  constructor
  · intro hst htr
    simp [create_order, h0, hauth, hst, htr]
  · intro pid order oid hst hpid hsave hid htr
    simp [create_order, h0, hauth, hst, hpid, hsave, hid, htr]

/-- C3: for a non-empty item list, the total is the exact sum of
`price * qty` over the items with `qty` defaulting to `1`, and that single
value is the amount carried by every collaborator call of the invocation:
the authorization amount, the persistence total, and the `"total"` entry
of every audit payload. -/
theorem create_order_total_invariant (ε : Type) (c : Collab ε) (u : Int)
    (items : List Item) (hne : items ≠ []) :
    orderTotal items = (items.map fun i => i.price * i.qty.getD 1).sum ∧
    ∀ ev ∈ (create_order c u items).2,
      ev.totalUsed = some (orderTotal items) := by
  refine ⟨rfl, ?_⟩
  rcases create_order_trace_shapes ε c u items hne with
    h | h | ⟨pid, h⟩ | ⟨pid, oid, h⟩ <;>
      simp [h, CallEvent.totalUsed, List.lookup]

/-- C8: for a non-empty item list and any collaborator behaviour, one
`create_order` invocation performs exactly one authorization call, at most
one persistence call and at most one audit call. -/
theorem create_order_call_bounds (ε : Type) (c : Collab ε) (u : Int)
    (items : List Item) (hne : items ≠ []) :
    (create_order c u items).2.countP CallEvent.isAuthorize = 1 ∧
    (create_order c u items).2.countP CallEvent.isSave ≤ 1 ∧
    (create_order c u items).2.countP CallEvent.isTrack ≤ 1 := by
  rcases create_order_trace_shapes ε c u items hne with
    h | h | ⟨pid, h⟩ | ⟨pid, oid, h⟩ <;>
      simp [h, List.countP_cons, CallEvent.isAuthorize, CallEvent.isSave,
        CallEvent.isTrack]

/-- C7: the async variant refines the sync variant: run against the same
collaborator behaviour, `OrderServiceAsync.create_order` produces exactly
the outcome and the call trace of `OrderService.create_order`, for every
user id and item list. -/
theorem create_order_async_refines_sync (ε : Type) (c : Collab ε)
    (u : Int) (items : List Item) :
    (create_order_async u items : OrderProg ε Order).run c =
      create_order c u items := by
  cases items with
  | nil => rfl
  | cons a l =>
    cases hauth : c.authorize_payment u (orderTotal (a :: l)) with
    | error e =>
      simp [create_order_async, create_order, OrderProg.run, hauth]
    | ok auth =>
      by_cases hst : auth.status = some "approved"
      · cases hpid : auth.payment_id with
        | none =>
          simp [create_order_async, create_order, OrderProg.run,
            hauth, hst, hpid]
        | some pid =>
          cases hsave : c.save_order u (a :: l) (orderTotal (a :: l)) pid with
          | error e =>
            simp [create_order_async, create_order, OrderProg.run,
              hauth, hst, hpid, hsave]
          | ok order =>
            cases hid : order.id with
            | none =>
              simp [create_order_async, create_order, OrderProg.run,
                hauth, hst, hpid, hsave, hid]
            | some oid =>
              cases htr : c.track "order_created"
                  [("order_id", oid), ("total", orderTotal (a :: l))] with
              | error e =>
                simp [create_order_async, create_order, OrderProg.run,
                  hauth, hst, hpid, hsave, hid, htr]
              | ok r =>
                simp [create_order_async, create_order, OrderProg.run,
                  hauth, hst, hpid, hsave, hid, htr]
      · cases htr : c.track "order_denied"
            [("user_id", u), ("total", orderTotal (a :: l))] with
        | error e =>
          simp [create_order_async, create_order, OrderProg.run,
            hauth, hst, htr]
        | ok r =>
          simp [create_order_async, create_order, OrderProg.run,
            hauth, hst, htr]

/-! Concrete collaborator behaviours, mirroring the mock configurations of
the repository's unit tests, used to instantiate the theorems above. -/

/-- Gateway approves with `payment_id = "pay_123"`; repository persists as
order 99; audit succeeds. -/
def approvingCollab : Collab String where
  authorize_payment := fun _ _ => Except.ok ⟨some "approved", some "pay_123"⟩
  save_order := fun _ _ _ _ => Except.ok ⟨some 99, [("total", 25)]⟩
  track := fun _ _ => Except.ok ()

/-- Gateway denies the payment; everything else succeeds. -/
def denyingCollab : Collab String where
  authorize_payment := fun _ _ => Except.ok ⟨some "denied", none⟩
  save_order := fun _ _ _ _ => Except.ok ⟨some 2, []⟩
  track := fun _ _ => Except.ok ()

/-- Gateway answers with a dict that has no `"status"` key at all. -/
def noStatusCollab : Collab String where
  authorize_payment := fun _ _ => Except.ok ⟨none, none⟩
  save_order := fun _ _ _ _ => Except.ok ⟨some 2, []⟩
  track := fun _ _ => Except.ok ()

/-- Gateway raises `"gateway timeout"`. -/
def gatewayDownCollab : Collab String where
  authorize_payment := fun _ _ => Except.error "gateway timeout"
  save_order := fun _ _ _ _ => Except.ok ⟨some 2, []⟩
  track := fun _ _ => Except.ok ()

/-- Gateway approves with `payment_id = "p1"`, repository raises
`"db down"`. -/
def repoDownCollab : Collab String where
  authorize_payment := fun _ _ => Except.ok ⟨some "approved", some "p1"⟩
  save_order := fun _ _ _ _ => Except.error "db down"
  track := fun _ _ => Except.ok ()

/-- Gateway denies; the audit sink raises `"audit down"`. -/
def auditDownDeniedCollab : Collab String where
  authorize_payment := fun _ _ => Except.ok ⟨some "denied", none⟩
  save_order := fun _ _ _ _ => Except.ok ⟨some 2, []⟩
  track := fun _ _ => Except.error "audit down"

/-- Gateway approves and the repository persists as order 7, but the audit
sink raises `"audit down"`. -/
def auditDownApprovedCollab : Collab String where
  authorize_payment := fun _ _ => Except.ok ⟨some "approved", some "p1"⟩
  save_order := fun _ _ _ _ => Except.ok ⟨some 7, []⟩
  track := fun _ _ => Except.error "audit down"

/-- Witness for C1 at the spec's success scenario: items
`[{price 10, qty 2}, {price 5, qty 1}]`, total 25, payment `"pay_123"`,
persisted order 99. -/
theorem create_order_approved_success_witness :
    create_order approvingCollab 1 [⟨10, some 2⟩, ⟨5, some 1⟩] =
      (Except.ok ⟨some 99, [("total", 25)]⟩,
       [CallEvent.authorize_payment 1 25,
        CallEvent.save_order 1 [⟨10, some 2⟩, ⟨5, some 1⟩] 25 "pay_123",
        CallEvent.track "order_created" [("order_id", 99), ("total", 25)]]) := by
  have h := create_order_approved_success String approvingCollab 1
      [⟨10, some 2⟩, ⟨5, some 1⟩] ⟨some "approved", some "pay_123"⟩ "pay_123"
      ⟨some 99, [("total", 25)]⟩ 99 (by decide) rfl rfl rfl rfl rfl rfl
  have e25 : orderTotal [⟨10, some 2⟩, ⟨5, some 1⟩] = 25 := by decide
  rw [e25] at h
  exact h

/-- Witness for C2 at the spec's denied scenario: user 7, one item of
price 10, denied authorization. -/
theorem create_order_denied_path_witness :
    (create_order denyingCollab 7 [⟨10, some 1⟩]).2 =
      [CallEvent.authorize_payment 7 10,
       CallEvent.track "order_denied" [("user_id", 7), ("total", 10)]] ∧
    (create_order denyingCollab 7 [⟨10, some 1⟩]).1 =
      Except.error (PyErr.permissionError "payment not approved") := by
  have h := create_order_denied_path String denyingCollab 7 [⟨10, some 1⟩]
      ⟨some "denied", none⟩ (by decide) rfl (by decide)
  have e10 : orderTotal [⟨10, some 1⟩] = 10 := by decide
  rw [e10] at h
  exact ⟨h.1, h.2 rfl⟩

/-- Witness for C3 at the spec's default-quantity scenario: an item with
`qty` absent counts with quantity 1, and the single total 25 reaches every
collaborator call. -/
theorem create_order_total_invariant_witness :
    orderTotal [⟨10, some 2⟩, ⟨5, none⟩] = 25 ∧
    ∀ ev ∈ (create_order approvingCollab 1 [⟨10, some 2⟩, ⟨5, none⟩]).2,
      ev.totalUsed = some 25 := by
  have h := create_order_total_invariant String approvingCollab 1
      [⟨10, some 2⟩, ⟨5, none⟩] (by decide)
  have e25 : orderTotal [⟨10, some 2⟩, ⟨5, none⟩] = 25 := by decide
  rw [e25] at h
  exact ⟨e25, h.2⟩

/-- Witness for C5: a gateway that raises `"gateway timeout"` on an item
list of total 6. -/
theorem create_order_gateway_error_witness :
    create_order gatewayDownCollab 1 [⟨3, some 2⟩] =
      (Except.error (PyErr.other "gateway timeout"),
       [CallEvent.authorize_payment 1 6]) := by
  have h := create_order_gateway_error String gatewayDownCollab 1
      [⟨3, some 2⟩] "gateway timeout" (by decide) rfl
  have e6 : orderTotal [⟨3, some 2⟩] = 6 := by decide
  rw [e6] at h
  exact h

/-- Witness for C6: approved authorization with payment `"p1"`, repository
raising `"db down"` on an item list of total 4. -/
theorem create_order_repo_error_witness :
    create_order repoDownCollab 1 [⟨4, some 1⟩] =
      (Except.error (PyErr.other "db down"),
       [CallEvent.authorize_payment 1 4,
        CallEvent.save_order 1 [⟨4, some 1⟩] 4 "p1"]) := by
  have h := create_order_repo_error String repoDownCollab 1 [⟨4, some 1⟩]
      ⟨some "approved", some "p1"⟩ "p1" "db down" (by decide) rfl rfl rfl rfl
  have e4 : orderTotal [⟨4, some 1⟩] = 4 := by decide
  rw [e4] at h
  exact h

/-- Witness for C8 at a concrete success run. -/
theorem create_order_call_bounds_witness :
    (create_order approvingCollab 1 [⟨2, some 2⟩]).2.countP
        CallEvent.isAuthorize = 1 ∧
    (create_order approvingCollab 1 [⟨2, some 2⟩]).2.countP
        CallEvent.isSave ≤ 1 ∧
    (create_order approvingCollab 1 [⟨2, some 2⟩]).2.countP
        CallEvent.isTrack ≤ 1 :=
  create_order_call_bounds String approvingCollab 1 [⟨2, some 2⟩] (by decide)

/-- Witness for C9: with a failing audit sink, the denied branch fails
with the audit error instead of `PermissionError`, and the created branch
fails with the audit error instead of returning the persisted order. -/
theorem create_order_audit_error_propagates_witness :
    (create_order auditDownDeniedCollab 7 [⟨10, some 1⟩]).1 =
      Except.error (PyErr.other "audit down") ∧
    (create_order auditDownApprovedCollab 1 [⟨4, some 1⟩]).1 =
      Except.error (PyErr.other "audit down") := by
  have h1 := (create_order_audit_error_propagates String auditDownDeniedCollab
      7 [⟨10, some 1⟩] ⟨some "denied", none⟩ "audit down"
      (by decide) rfl).1 (by decide) rfl
  have h2 := (create_order_audit_error_propagates String auditDownApprovedCollab
      1 [⟨4, some 1⟩] ⟨some "approved", some "p1"⟩ "audit down"
      (by decide) rfl).2 "p1" ⟨some 7, []⟩ 7 rfl rfl rfl rfl rfl
  exact ⟨h1, h2⟩

/-- Witness for C10: an authorization dict with no `"status"` key leads to
the denied path, not to a `KeyError`. -/
theorem create_order_missing_status_denied_witness :
    (create_order noStatusCollab 7 [⟨10, some 1⟩]).2 =
      [CallEvent.authorize_payment 7 10,
       CallEvent.track "order_denied" [("user_id", 7), ("total", 10)]] ∧
    (∀ k, (create_order noStatusCollab 7 [⟨10, some 1⟩]).1 ≠
      Except.error (PyErr.keyError k)) ∧
    (create_order noStatusCollab 7 [⟨10, some 1⟩]).1 =
      Except.error (PyErr.permissionError "payment not approved") := by
  have h := create_order_missing_status_denied String noStatusCollab 7
      [⟨10, some 1⟩] ⟨none, none⟩ (by decide) rfl rfl
  have e10 : orderTotal [⟨10, some 1⟩] = 10 := by decide
  rw [e10] at h
  exact ⟨h.1, h.2.1, h.2.2 rfl⟩

end OrderPOC
